import Mathlib

set_option maxRecDepth 8192

/-!
Verification of the resume-scanner scoring pipeline.

The Python sources in app/utils.py and app/services/__init__.py are shallowly
embedded here. Python strings are modelled as lists of characters
(abbreviation Str); machine floats that only ever hold small decimal values
are modelled as exact rationals; exceptions raised by library calls are
modelled as Except values passed in as oracles, and the repository code that
catches them is translated to total Lean functions; the JSON decoding done by
json.loads is modelled by an executable recursive-descent parser over the
JSON value grammar.
-/

/-- Python strings are modelled as lists of characters. -/
abbrev Str := List Char

/-- Python str.strip with no argument: drop leading and trailing whitespace. -/
def pyStrip (s : Str) : Str :=
  ((s.dropWhile Char.isWhitespace).reverse.dropWhile Char.isWhitespace).reverse

/-- Python str.lower, restricted to the ASCII data the pipeline handles. -/
def pyLower (s : Str) : Str := s.map Char.toLower

/-- Python str.capitalize: first character upper-cased, the rest lower-cased. -/
def pyCapitalize (s : Str) : Str :=
  match s with
  | [] => []
  | c :: rest => Char.toUpper c :: rest.map Char.toLower

/-- Python substring membership, needle in hay, as used by the in operator. -/
def containsSub (needle : Str) : Str → Bool
  | [] => needle.isEmpty
  | c :: rest => needle.isPrefixOf (c :: rest) || containsSub needle rest

/-- Python str.find: index of the first occurrence of a character, -1 if absent. -/
def pyFind (s : Str) (c : Char) : Int :=
  match s.findIdx? (· == c) with
  | some i => (i : Int)
  | none => -1

/-- Python str.rfind: index of the last occurrence of a character, -1 if absent. -/
def pyRFind (s : Str) (c : Char) : Int :=
  match s.reverse.findIdx? (· == c) with
  | some j => (s.length : Int) - 1 - (j : Int)
  | none => -1

/-- Python slicing s[a:b] for 0 <= a <= b, clamped at the end of the string. -/
def pySlice (s : Str) (a b : Nat) : Str := (s.drop a).take (b - a)

/-- JSON values as produced by json.loads: null, booleans, numbers (exact
rationals), strings, arrays and objects with insertion-ordered fields. -/
inductive JValue where
  | null
  | bool (b : Bool)
  | num (q : Rat)
  | str (s : Str)
  | arr (elems : List JValue)
  | obj (fields : List (Str × JValue))

/-- Insertion into a Python dict: overwrite in place if the key is present
(keeping its position), otherwise append at the end. -/
def dictInsert (fields : List (Str × JValue)) (k : Str) (v : JValue) :
    List (Str × JValue) :=
  match fields with
  | [] => [(k, v)]
  | (k', v') :: rest =>
      if k' = k then (k', v) :: rest else (k', v') :: dictInsert rest k v

/-- Lookup in a Python dict (fields built by dictInsert have unique keys, so
first-occurrence lookup is dict lookup). -/
def jLookup (k : Str) : List (Str × JValue) → Option JValue
  | [] => none
  | (k', v) :: rest => if k' = k then some v else jLookup k rest

/-- JSON whitespace accepted between tokens by json.loads. -/
def jsonWs (c : Char) : Bool := c = ' ' || c = '\t' || c = '\n' || c = '\r'

/-- Skip JSON whitespace. -/
def skipWs : Str → Str
  | c :: cs => if jsonWs c then skipWs cs else c :: cs
  | [] => []

/-- Numeric value of a nonempty list of decimal digits. -/
def digitsVal (ds : Str) : Nat :=
  ds.foldl (fun acc c => acc * 10 + (c.toNat - '0'.toNat)) 0

/-- Value of a hexadecimal digit, if any. -/
def hexDigitVal (c : Char) : Option Nat :=
  if '0' ≤ c ∧ c ≤ '9' then some (c.toNat - '0'.toNat)
  else if 'a' ≤ c ∧ c ≤ 'f' then some (c.toNat - 'a'.toNat + 10)
  else if 'A' ≤ c ∧ c ≤ 'F' then some (c.toNat - 'A'.toNat + 10)
  else none

/-- Decode one escaped character of a JSON string (the single-letter escapes). -/
def jsonEscape : Char → Option Char
  | '"' => some '"'
  | '\\' => some '\\'
  | '/' => some '/'
  | 'b' => some (Char.ofNat 8)
  | 'f' => some (Char.ofNat 12)
  | 'n' => some '\n'
  | 'r' => some '\r'
  | 't' => some '\t'
  | _ => none

/-- Parse the body of a JSON string after its opening quote, returning the
decoded content and the input remaining after the closing quote. -/
def parseJsonStringBody : Str → Option (Str × Str)
  | [] => none
  | '"' :: rest => some ([], rest)
  | '\\' :: 'u' :: a :: b :: c :: d :: rest => do
      let va ← hexDigitVal a
      let vb ← hexDigitVal b
      let vc ← hexDigitVal c
      let vd ← hexDigitVal d
      let (s, r) ← parseJsonStringBody rest
      some (Char.ofNat (((va * 16 + vb) * 16 + vc) * 16 + vd) :: s, r)
  | '\\' :: e :: rest => do
      let ch ← jsonEscape e
      let (s, r) ← parseJsonStringBody rest
      some (ch :: s, r)
  | c :: rest => do
      let (s, r) ← parseJsonStringBody rest
      some (c :: s, r)

/-- Parse a JSON number (integer part without leading zeros, optional
fraction, optional exponent) into an exact rational. -/
def parseJsonNumber (cs : Str) : Option (Rat × Str) :=
  let (neg, cs1) := match cs with
    | '-' :: r => (true, r)
    | _ => (false, cs)
  let (intDs, cs2) := cs1.span (·.isDigit)
  if intDs.isEmpty then none
  else if 1 < intDs.length ∧ intDs.headD ' ' = '0' then none
  else
    let withFrac : Option (Rat × Str) :=
      match cs2 with
      | '.' :: r =>
          let (fracDs, cs3) := r.span (·.isDigit)
          if fracDs.isEmpty then none
          else some ((digitsVal intDs : Rat) +
            (digitsVal fracDs : Rat) / ((10 : Rat) ^ fracDs.length), cs3)
      | _ => some ((digitsVal intDs : Rat), cs2)
    match withFrac with
    | none => none
    | some (base, cs3) =>
        let withExp : Option (Rat × Str) :=
          match cs3 with
          | 'e' :: r | 'E' :: r =>
              let (esign, r1) := match r with
                | '+' :: r2 => (true, r2)
                | '-' :: r2 => (false, r2)
                | _ => (true, r)
              let (eds, r3) := r1.span (·.isDigit)
              if eds.isEmpty then none
              else if esign then some (base * (10 : Rat) ^ digitsVal eds, r3)
              else some (base / (10 : Rat) ^ digitsVal eds, r3)
          | _ => some (base, cs3)
        match withExp with
        | none => none
        | some (q, r) => some (if neg then -q else q, r)

mutual

/-- Parse one JSON value at the head of the input (whitespace already
skipped), structurally recursing on a fuel counter. -/
def parseJsonValue : Nat → Str → Option (JValue × Str)
  | 0, _ => none
  | Nat.succ fuel, cs =>
      match cs with
      | 'n' :: 'u' :: 'l' :: 'l' :: r => some (.null, r)
      | 't' :: 'r' :: 'u' :: 'e' :: r => some (.bool true, r)
      | 'f' :: 'a' :: 'l' :: 's' :: 'e' :: r => some (.bool false, r)
      | '"' :: r =>
          match parseJsonStringBody r with
          | some (s, r') => some (.str s, r')
          | none => none
      | '\x5b' :: r =>
          match skipWs r with
          | '\x5d' :: r' => some (.arr [], r')
          | r' => parseJsonElems fuel r' []
      | '\x7b' :: r =>
          match skipWs r with
          | '\x7d' :: r' => some (.obj [], r')
          | r' => parseJsonMembers fuel r' []
      | _ =>
          match parseJsonNumber cs with
          | some (q, r) => some (.num q, r)
          | none => none

/-- Parse the comma-separated elements of a nonempty JSON array, up to and
including the closing bracket. -/
def parseJsonElems : Nat → Str → List JValue → Option (JValue × Str)
  | 0, _, _ => none
  | Nat.succ fuel, cs, acc =>
      match parseJsonValue fuel cs with
      | none => none
      | some (v, r) =>
          match skipWs r with
          | ',' :: r' => parseJsonElems fuel (skipWs r') (acc ++ [v])
          | '\x5d' :: r' => some (.arr (acc ++ [v]), r')
          | _ => none

/-- Parse the comma-separated members of a nonempty JSON object, up to and
including the closing brace; duplicate keys overwrite like Python dicts. -/
def parseJsonMembers : Nat → Str → List (Str × JValue) → Option (JValue × Str)
  | 0, _, _ => none
  | Nat.succ fuel, cs, acc =>
      match cs with
      | '"' :: r =>
          match parseJsonStringBody r with
          | none => none
          | some (k, r1) =>
              match skipWs r1 with
              | ':' :: r2 =>
                  match parseJsonValue fuel (skipWs r2) with
                  | none => none
                  | some (v, r3) =>
                      let acc' := dictInsert acc k v
                      match skipWs r3 with
                      | ',' :: r4 => parseJsonMembers fuel (skipWs r4) acc'
                      | '\x7d' :: r4 => some (.obj acc', r4)
                      | _ => none
              | _ => none
      | _ => none

end

/-- Python json.loads: parse a complete JSON document, requiring the whole
input to be consumed (up to trailing whitespace). -/
def jsonLoads (cs : Str) : Option JValue :=
  match parseJsonValue (2 * cs.length + 2) (skipWs cs) with
  | some (v, rest) => if skipWs rest = [] then some v else none
  | none => none

/-- Python str.split(sep) with nonempty sep, via an explicit fuel counter
(fuel s.length + 1 always suffices: every step consumes at least one
character of the remaining input). -/
def pySplitGo (sep : Str) : Nat → Str → Str → List Str
  | 0, acc, rest => [acc.reverse ++ rest]
  | Nat.succ fuel, acc, rest =>
      if sep.isPrefixOf rest ∧ sep ≠ [] then
        acc.reverse :: pySplitGo sep fuel [] (rest.drop sep.length)
      else
        match rest with
        | [] => [acc.reverse]
        | c :: r => pySplitGo sep fuel (c :: acc) r

/-- Python str.split(sep) for a nonempty separator. -/
def pySplit (sep s : Str) : List Str := pySplitGo sep (s.length + 1) [] s

/-- The fixed vocabulary of common skills scanned by the fallback analysis
(utils.AIProcessor._generate_fallback_analysis). -/
def common_skills : List Str :=
  ["python".toList, "java".toList, "javascript".toList, "html".toList,
   "css".toList, "react".toList, "angular".toList, "node".toList,
   "sql".toList, "nosql".toList, "mongodb".toList, "aws".toList,
   "azure".toList, "docker".toList, "kubernetes".toList, "ci/cd".toList,
   "agile".toList, "scrum".toList, "project management".toList,
   "leadership".toList, "communication".toList, "teamwork".toList,
   "problem solving".toList, "critical thinking".toList,
   "time management".toList, "customer service".toList, "sales".toList,
   "marketing".toList, "finance".toList, "accounting".toList, "hr".toList,
   "human resources".toList]

/-- One entry of the fallback skills_match list: skill name (capitalized),
fixed 70 percent match, fixed Intermediate level. -/
def skillEntry (name : Str) : JValue :=
  .obj [("skill".toList, .str name),
        ("match_percentage".toList, .num 70),
        ("level".toList, .str "Intermediate".toList)]

/-- The common skills found as case-insensitive substrings of the resume
text, in vocabulary order. -/
def foundSkills (resume_text : Str) : List Str :=
  common_skills.filter (fun sk => containsSub (pyLower sk) (pyLower resume_text))

/-- The skills_match list of the fallback analysis: empty when nothing was
found, otherwise the first five found skills as skillEntry records. -/
def fallbackSkillsMatch (resume_text : Str) : List JValue :=
  let found := foundSkills resume_text
  if found.isEmpty then [] else (found.take 5).map (fun sk => skillEntry (pyCapitalize sk))

/-- Keyword buckets of the role-alignment heuristic in the fallback path. -/
def tech_keywords : List Str :=
  ["python".toList, "java".toList, "javascript".toList, "programming".toList,
   "developer".toList, "software".toList, "code".toList, "algorithm".toList,
   "data structure".toList]

def data_keywords : List Str :=
  ["data".toList, "analytics".toList, "statistics".toList,
   "machine learning".toList, "ai".toList, "artificial intelligence".toList,
   "model".toList, "prediction".toList]

def marketing_keywords : List Str :=
  ["marketing".toList, "social media".toList, "campaign".toList,
   "brand".toList, "content".toList, "seo".toList, "ppc".toList,
   "advertising".toList]

def hr_keywords : List Str :=
  ["hr".toList, "human resources".toList, "recruitment".toList,
   "talent".toList, "onboarding".toList, "employee".toList,
   "benefits".toList, "compensation".toList]

def finance_keywords : List Str :=
  ["finance".toList, "accounting".toList, "budget".toList,
   "financial".toList, "tax".toList, "audit".toList, "investment".toList,
   "revenue".toList]

/-- Number of keywords of a bucket found in the resume text
(case-insensitive substring containment). -/
def keywordCount (kws : List Str) (resume_text : Str) : Nat :=
  (kws.filter (fun kw => containsSub (pyLower kw) (pyLower resume_text))).length

/-- The category-count dict of the fallback role-alignment heuristic, in
insertion order. -/
def categoryCounts (resume_text : Str) : List (Str × Nat) :=
  [("Software Development".toList, keywordCount tech_keywords resume_text),
   ("Data Science".toList, keywordCount data_keywords resume_text),
   ("Marketing".toList, keywordCount marketing_keywords resume_text),
   ("Human Resources".toList, keywordCount hr_keywords resume_text),
   ("Finance".toList, keywordCount finance_keywords resume_text)]

/-- Python max(counts, key=counts.get): the first key attaining the maximal
count, paired with that count. -/
def maxCategory (resume_text : Str) : Str × Nat :=
  match categoryCounts resume_text with
  | [] => ([], 0)
  | e :: rest => rest.foldl (fun best x => if best.2 < x.2 then x else best) e

/-- The job role parsed out of the job description by the fallback analysis:
the text between the first Job Title: marker and the following newline,
stripped; empty when the marker is absent. -/
def fallbackJobRole (job_description : Str) : Str :=
  if containsSub "Job Title:".toList job_description then
    pyStrip ((pySplit "\n".toList
      ((pySplit "Job Title:".toList job_description).getD 1 [])).headD [])
  else []

/-- The fixed base summary of the fallback analysis (the triple-quoted
literal in the source after .strip()). -/
def fallbackBaseSummary : Str :=
  ("The system encountered an error while analyzing this resume against the job requirements. \nA basic analysis has been generated based on keyword matching, but it may not reflect the full qualifications of the candidate.\n\nBased on the limited analysis, the candidate appears to have some relevant skills for the position, but a more detailed review by a human recruiter is recommended. \nThe system was unable to properly evaluate the candidate\x27s experience and education relevance to the job requirements.\n\nWe recommend manually reviewing the resume to assess the candidate\x27s qualifications, or try reprocessing the resume to get a more accurate analysis.\nIf this error persists, please contact technical support for assistance.").toList

/-- Python ", ".join over a list of strings. -/
def joinWith (sep : Str) : List Str → Str
  | [] => []
  | [s] => s
  | s :: rest => s ++ sep ++ joinWith sep rest

/-- The summary text of the fallback analysis: the base summary, plus a
found-skills sentence when skills were found, plus a role-alignment note
when the dominant keyword bucket count exceeds 5 and its label does not
already occur in the parsed job role. -/
def fallbackSummary (resume_text job_description : Str) : Str :=
  let found := foundSkills resume_text
  let withSkills :=
    if found.isEmpty then fallbackBaseSummary
    else
      let skills_text := joinWith ", ".toList ((found.take 5).map pyCapitalize)
      fallbackBaseSummary ++ "\n\nThe candidate appears to have skills in ".toList ++
        skills_text ++ ", which may be relevant to the position.".toList
  let job_role := fallbackJobRole job_description
  let (max_cat, max_count) := maxCategory resume_text
  if 5 < max_count ∧ job_role ≠ [] ∧
      ¬ containsSub (pyLower max_cat) (pyLower job_role) = true then
    withSkills ++ "\n\nBased on keyword analysis, this resume appears to be more aligned with ".toList ++
      max_cat ++ " roles rather than the ".toList ++ job_role ++
      " position. Consider discussing with the candidate if they have specific interest or experience in ".toList ++
      job_role ++ " that may not be apparent from their resume.".toList
  else withSkills

/-- utils.AIProcessor._generate_fallback_analysis: the structured fallback
result produced when the JSON in the model response cannot be parsed.
Keys appear in dict insertion order; the in-place updates of skills_match
and summary performed by the source are reflected in the field values. -/
def _generate_fallback_analysis (resume_text job_description raw_response : Str) : JValue :=
  .obj [("error".toList, .str "Failed to parse AI response".toList),
        ("raw_analysis".toList, .str
          (if 500 < raw_response.length then pySlice raw_response 0 500 ++ "...".toList
           else raw_response)),
        ("overall_match_score".toList, .num 50),
        ("skills_match".toList, .arr (fallbackSkillsMatch resume_text)),
        ("experience_relevance".toList, .num 50),
        ("education_relevance".toList, .num 50),
        ("strengths".toList, .arr [.str "Unable to determine strengths due to processing error".toList]),
        ("weaknesses".toList, .arr [.str "Unable to determine weaknesses due to processing error".toList]),
        ("recommendations".toList, .arr [.str "Try reprocessing the resume or check system logs for details".toList]),
        ("summary".toList, .str (fallbackSummary resume_text job_description))]

/-- The four required MatchResult fields and their neutral defaults, in the
order the source checks them. -/
def requiredFields : List (Str × JValue) :=
  [("overall_match_score".toList, .num 0),
   ("skills_match".toList, .arr []),
   ("experience_relevance".toList, .num 0),
   ("education_relevance".toList, .num 0)]

/-- Python `key in value` for the parsed JSON value: key membership for
dicts, substring test for strings, element membership for lists; none
models the TypeError raised for other types. -/
def pyContains (v : JValue) (k : Str) : Option Bool :=
  match v with
  | .obj fs => some (fs.any (fun f => f.1 == k))
  | .str s => some (containsSub k s)
  | .arr es => some (es.any (fun e => match e with | .str s => s == k | _ => false))
  | _ => none

/-- Python `value[k] = d` on the parsed JSON value: dict insertion for
dicts; none models the TypeError raised for every other type. -/
def pyDictAssign (v : JValue) (k : Str) (d : JValue) : Option JValue :=
  match v with
  | .obj fs => some (.obj (dictInsert fs k d))
  | _ => none

/-- One iteration of the field-backfill loop: if `field not in match_data`
assign its neutral default; none models a TypeError escaping to the outer
handler. -/
def backfillStep (acc : Option JValue) (kd : Str × JValue) : Option JValue :=
  match acc with
  | none => none
  | some w =>
      match pyContains w kd.1 with
      | none => none
      | some true => some w
      | some false => pyDictAssign w kd.1 kd.2

/-- The field-backfill loop of generate_job_description_match over the four
required fields. -/
def backfillRequiredFields (v : JValue) : Option JValue :=
  requiredFields.foldl backfillStep (some v)

/-- The JSON-extraction step of generate_job_description_match: find the
first opening brace and the last closing brace; when that span is nonempty
parse it as JSON, otherwise parse the entire response text. -/
def parseModelResponse (analysis_text : Str) : Option JValue :=
  let json_start := pyFind analysis_text '\x7b'
  let json_end := pyRFind analysis_text '\x7d' + 1
  if 0 ≤ json_start ∧ json_start < json_end then
    jsonLoads (pySlice analysis_text json_start.toNat json_end.toNat)
  else
    jsonLoads analysis_text

/-- The outcome of the single OpenAI chat-completion call: either the client
raised, or it returned a message content string. -/
inductive ApiOutcome where
  | raised (msg : Str)
  | responded (content : Str)

/-- The common shape of the error results of generate_job_description_match:
all scores zero, empty lists, an error field and a summary. -/
def zeroScoreResult (errMsg summaryMsg : Str) : JValue :=
  .obj [("error".toList, .str errMsg),
        ("overall_match_score".toList, .num 0),
        ("skills_match".toList, .arr []),
        ("experience_relevance".toList, .num 0),
        ("education_relevance".toList, .num 0),
        ("strengths".toList, .arr []),
        ("weaknesses".toList, .arr []),
        ("recommendations".toList, .arr []),
        ("summary".toList, .str summaryMsg)]

/-- Result returned when the resume text fails the 100-character check. -/
def resumeTooShortResult : JValue :=
  zeroScoreResult "Resume text is too short or empty".toList
    "Cannot analyze match: resume text is insufficient".toList

/-- Result returned when the job description fails the 50-character check. -/
def jobDescriptionTooShortResult : JValue :=
  zeroScoreResult "Job description is too short or empty".toList
    "Cannot analyze match: job description is insufficient".toList

/-- Result returned when the OpenAI call raises. -/
def openAIErrorResult (msg : Str) : JValue :=
  zeroScoreResult ("OpenAI API error: ".toList ++ msg)
    "Error communicating with AI service".toList

/-- Stand-in for the interpreter text of the TypeError raised when the
parsed JSON value is not a dict and the field checks or assignments fail;
it escapes the JSONDecodeError handler and is caught by the surrounding
api-error handler, which prefixes it with OpenAI API error. -/
def typeErrorMsg : Str :=
  "TypeError raised while validating the required fields".toList

/-- Result of the outermost exception handler of
generate_job_description_match (unreachable in this model: every failure
of the modelled steps is caught by an inner handler first). -/
def analysisErrorResult (msg : Str) : JValue :=
  zeroScoreResult msg "Error analyzing match".toList

/-- The parse-and-validate path of generate_job_description_match on the
stripped content of a returned message: parse, backfill the required
fields, fall back to the keyword analysis when the JSON decode fails, and
absorb the TypeError of a non-dict value into the outer error result. -/
def handleApiResponse (resume_text job_description content : Str) : JValue × Bool :=
  let analysis_text := pyStrip content
  match parseModelResponse analysis_text with
  | some v =>
      match backfillRequiredFields v with
      | some v' => (v', true)
      | none => (openAIErrorResult typeErrorMsg, true)
  | none =>
      (_generate_fallback_analysis resume_text job_description analysis_text, true)

/-- utils.AIProcessor.generate_job_description_match, with the OpenAI call
modelled by an ApiOutcome oracle. Returns the result dict together with a
flag recording whether the external call was reached. Debug file writes
and logging in the source are side effects outside the result and are not
modelled. -/
def generate_job_description_match (resume_text job_description : Str)
    (api : ApiOutcome) : JValue × Bool :=
  if resume_text = [] ∨ (pyStrip resume_text).length < 100 then
    (resumeTooShortResult, false)
  else if job_description = [] ∨ (pyStrip job_description).length < 50 then
    (jobDescriptionTooShortResult, false)
  else
    match api with
    | .raised e => (openAIErrorResult e, true)
    | .responded content => handleApiResponse resume_text job_description content

/-- One skill dict of a resume analysis as far as the technical-score
calculation reads it: skill.get("level", "") modelled by an optional level. -/
structure PySkill where
  level : Option Str

/-- The fixed level-to-score map of _calculate_technical_score. -/
def level_scores : List (Str × Rat) :=
  [("beginner".toList, 25), ("intermediate".toList, 50),
   ("advanced".toList, 75), ("expert".toList, 100)]

/-- Round half to even, the rounding used by Python round on values the
pipeline produces (exact on the rationals modelled here). -/
def roundHalfEven (x : Rat) : Int :=
  let n := ⌊x⌋
  let r := x - (n : Rat)
  if r < 1 / 2 then n
  else if 1 / 2 < r then n + 1
  else if n % 2 = 0 then n else n + 1

/-- Python round(x, 1) on the exact rationals of this model. -/
def pyRound1 (q : Rat) : Rat := ((roundHalfEven (q * 10) : Int) : Rat) / 10

/-- The score of one skill: the level map applied to the lower-cased level,
defaulting to 50 when the level is unspecified or not in the map. -/
def skillScore (s : PySkill) : Rat :=
  match List.lookup (pyLower (s.level.getD [])) level_scores with
  | some q => q
  | none => 50

/-- utils.AIProcessor._calculate_technical_score applied to the skills field
of the analysis record (none models an absent key; an absent or empty list
is falsy and short-circuits to 0). -/
def _calculate_technical_score (skills : Option (List PySkill)) : Rat :=
  match skills with
  | none => 0
  | some [] => 0
  | some l => pyRound1 ((l.map skillScore).sum / ((max l.length 1 : Nat) : Rat))

/-- One experience dict of a resume analysis as far as the total-experience
calculation reads it: exp.get("duration", "0") modelled by an optional
duration string. -/
structure ExpEntry where
  duration : Option Str

/-- The duration string of an experience entry, with the source default. -/
def entryDuration (e : ExpEntry) : Str := e.duration.getD "0".toList

/-- The characters of the duration kept by the source comprehension:
digits and dots, concatenated in order. -/
def durationFiltered (e : ExpEntry) : Str :=
  (entryDuration e).filter (fun c => c.isDigit || c = '.')

/-- Python float() on a string of digits and dots (the only strings it
receives here): at least one digit and at most one dot, otherwise a
ValueError modelled as none. -/
def pyFloatDigitsDots (cs : Str) : Option Rat :=
  if cs.any (·.isDigit) = false then none
  else
    let (ip, rest) := cs.span (·.isDigit)
    match rest with
    | [] => some ((digitsVal ip : Nat) : Rat)
    | '.' :: frac =>
        if frac.all (·.isDigit) then
          some (((digitsVal ip : Nat) : Rat) +
            ((digitsVal frac : Nat) : Rat) / ((10 : Rat) ^ frac.length))
        else none
    | _ => none

/-- The contribution of one experience entry to the total: the parsed
filtered duration, or nothing when float() raises. -/
def durationYears (e : ExpEntry) : Option Rat := pyFloatDigitsDots (durationFiltered e)

/-- utils.AIProcessor._calculate_total_experience applied to the experience
field of the analysis record (none models an absent key; an absent or
empty list is falsy and short-circuits to 0). -/
def _calculate_total_experience (experience : Option (List ExpEntry)) : Rat :=
  match experience with
  | none => 0
  | some [] => 0
  | some exps =>
      pyRound1 (exps.foldl
        (fun acc e =>
          match durationYears e with
          | some y => acc + y
          | none => acc) 0)

/-- Runs of characters satisfying p, in order, with the other characters
discarded; the Bool tracks whether the input starts inside a run. -/
def charRuns (p : Char → Bool) : Str → List Str × Bool
  | [] => ([], false)
  | c :: rest =>
      let (runs, headIn) := charRuns p rest
      if p c then
        match runs, headIn with
        | r :: rs, true => ((c :: r) :: rs, true)
        | _, _ => ([c] :: runs, true)
      else (runs, false)

/-- Follows the wording of the spec for comparison with the source: the
first embedded numeric token of a free-text duration string (the first
maximal digit-and-dot run that parses as a number). -/
def firstNumericToken (s : Str) : Option Rat :=
  ((charRuns (fun c => c.isDigit || c = '.') s).1.filterMap pyFloatDigitsDots).head?

/-- Follows the wording of the spec for comparison with
_calculate_total_experience: sum of the first embedded numeric token of
each duration, non-numeric durations skipped. -/
def totalExperienceSpec (experience : Option (List ExpEntry)) : Rat :=
  match experience with
  | none => 0
  | some [] => 0
  | some exps =>
      pyRound1 (exps.foldl
        (fun acc e =>
          match firstNumericToken (entryDuration e) with
          | some y => acc + y
          | none => acc) 0)

/-- The three-letter month names of the first date pattern of
ResumeValidator.validate_date_formats. -/
def monthNames : List Str :=
  ["Jan".toList, "Feb".toList, "Mar".toList, "Apr".toList, "May".toList,
   "Jun".toList, "Jul".toList, "Aug".toList, "Sep".toList, "Oct".toList,
   "Nov".toList, "Dec".toList]

/-- ASCII lower-case letter, the character class of the month pattern. -/
def isAsciiLowerAlpha (c : Char) : Bool := 'a' ≤ c && c ≤ 'z'

/-- After the month name: lower-case letters, one space, four digits. -/
def monthTokenTail : Str → Bool
  | [] => false
  | c :: rest =>
      if c = ' ' then rest.length = 4 && rest.all (·.isDigit)
      else isAsciiLowerAlpha c && monthTokenTail rest

/-- A token matched by the month-name date pattern
(Jan|Feb|...|Dec)[a-z]* \d, four digits. -/
def isMonthToken (s : Str) : Bool :=
  match s with
  | a :: b :: c :: rest => decide ([a, b, c] ∈ monthNames) && monthTokenTail rest
  | _ => false

/-- A token matched by the second date pattern, two digits, slash, two
digits, slash, four digits. -/
def isSlashDateToken : Str → Bool
  | [a, b, c, d, e, f, g, h, i, j] =>
      a.isDigit && b.isDigit && (c == '/') && d.isDigit && e.isDigit &&
      (f == '/') && g.isDigit && h.isDigit && i.isDigit && j.isDigit
  | _ => false

/-- A token matched by the third date pattern, four digits, dash, two
digits, dash, two digits. -/
def isIsoDateToken : Str → Bool
  | [a, b, c, d, e, f, g, h, i, j] =>
      a.isDigit && b.isDigit && c.isDigit && d.isDigit && (e == '-') &&
      f.isDigit && g.isDigit && (h == '-') && i.isDigit && j.isDigit
  | _ => false

/-- Gregorian leap year, as datetime uses it. -/
def isLeapYear (y : Nat) : Bool := y % 4 = 0 && (y % 100 ≠ 0 || y % 400 = 0)

/-- Days in a month of a year, as datetime validates them. -/
def daysInMonth (y m : Nat) : Nat :=
  if m = 2 then (if isLeapYear y then 29 else 28)
  else if m = 4 ∨ m = 6 ∨ m = 9 ∨ m = 11 then 30
  else 31

/-- Python datetime.strptime(s, percent-Y-m-d): exactly four year digits,
one or two month and day digits, dashes between, nothing left over, and a
calendar-valid date (year at least 1). -/
def strptimeIsoDate (s : Str) : Option (Nat × Nat × Nat) :=
  let (ys, r1) := s.span (·.isDigit)
  match r1 with
  | c1 :: r2 =>
      if c1 = '-' then
        let (ms, r3) := r2.span (·.isDigit)
        match r3 with
        | c2 :: r4 =>
            if c2 = '-' then
              let (ds, r5) := r4.span (·.isDigit)
              if ys.length = 4 ∧ 1 ≤ ms.length ∧ ms.length ≤ 2 ∧
                  1 ≤ ds.length ∧ ds.length ≤ 2 ∧ r5 = [] then
                let y := digitsVal ys
                let m := digitsVal ms
                let d := digitsVal ds
                if 1 ≤ y ∧ 1 ≤ m ∧ m ≤ 12 ∧ 1 ≤ d ∧ d ≤ daysInMonth y m then
                  some (y, m, d)
                else none
              else none
            else none
        | [] => none
      else none
  | [] => none

/-- ResumeValidator.validate_date_formats, with the finditer result of each
of the three patterns supplied as a token list: every matched token is
checked only against the ISO parser, and the failing ones are collected
pattern by pattern. -/
def validate_date_formats (monthMatches slashMatches isoMatches : List Str) : List Str :=
  monthMatches.filter (fun s => (strptimeIsoDate s).isNone) ++
  slashMatches.filter (fun s => (strptimeIsoDate s).isNone) ++
  isoMatches.filter (fun s => (strptimeIsoDate s).isNone)

/-- The sentinel prefixed to every extraction failure. -/
def extractionSentinel : Str := "ERROR EXTRACTING TEXT: ".toList

/-- A Word document as the extractors read it: paragraph texts in document
order, and tables as rows of cell texts. -/
structure DocxDocument where
  paragraphs : List Str
  tables : List (List (List Str))

namespace AppUtils

/-- The paragraph part of utils.ResumeProcessor._extract_text_from_docx:
paragraphs with nonblank text, joined by blank lines. -/
def docxParagraphText (doc : DocxDocument) : Str :=
  joinWith "\n\n".toList (doc.paragraphs.filter (fun p => pyStrip p ≠ []))

/-- One table row: nonblank cells joined with a vertical-bar separator. -/
def docxRowText (row : List Str) : Str :=
  joinWith " | ".toList (row.filter (fun c => pyStrip c ≠ []))

/-- The table loop of _extract_text_from_docx: append every nonempty row
text, each on a new line, after the text built so far. -/
def docxAppendTables (tables : List (List (List Str))) (text : Str) : Str :=
  tables.foldl
    (fun t table =>
      table.foldl
        (fun t row =>
          let row_text := docxRowText row
          if row_text ≠ [] then t ++ '\n' :: row_text else t)
        t)
    text

/-- The text utils.ResumeProcessor._extract_text_from_docx builds from a
readable document: paragraphs first, then the table rows. -/
def docxText (doc : DocxDocument) : Str :=
  docxAppendTables doc.tables (docxParagraphText doc)

/-- utils.ResumeProcessor._extract_text_from_docx, with the docx library
call modelled by an oracle that either yields the document or raises. -/
def _extract_text_from_docx (docxRes : Except Str DocxDocument) : Str :=
  match docxRes with
  | .ok doc => docxText doc
  | .error e => extractionSentinel ++ "Error in DOCX extraction: ".toList ++ e

/-- The result reported when every PDF strategy failed or came back blank. -/
def pdfFailText : Str :=
  extractionSentinel ++ "All PDF extraction methods failed".toList

/-- The pdftotext stage of the PDF chain (the last strategy). -/
def pdfStage3 (pdftotextRes : Except Str Str) : Str :=
  match pdftotextRes with
  | .ok t => if pyStrip t ≠ [] then t else pdfFailText
  | .error _ => pdfFailText

/-- The PyPDF2 stage of the PDF chain, falling through to pdftotext. -/
def pdfStage2 (pypdf2Res pdftotextRes : Except Str Str) : Str :=
  match pypdf2Res with
  | .ok t => if pyStrip t ≠ [] then t else pdfStage3 pdftotextRes
  | .error _ => pdfStage3 pdftotextRes

/-- utils.ResumeProcessor._extract_text_from_pdf: pdfplumber, then PyPDF2,
then pdftotext, first nonblank text wins; all three failing or blank is an
extraction failure. Each oracle is the accumulated text of one library,
or the exception it raised. -/
def _extract_text_from_pdf (plumberRes pypdf2Res pdftotextRes : Except Str Str) : Str :=
  match plumberRes with
  | .ok t => if pyStrip t ≠ [] then t else pdfStage2 pypdf2Res pdftotextRes
  | .error _ => pdfStage2 pypdf2Res pdftotextRes

/-- utils.ResumeProcessor._extract_text_from_txt: the file read (with
errors ignored) either yields text or raises. -/
def _extract_text_from_txt (txtRes : Except Str Str) : Str :=
  match txtRes with
  | .ok t => t
  | .error e => extractionSentinel ++ "Error in TXT extraction: ".toList ++ e

/-- The MIME-type dispatch of utils.ResumeProcessor.extract_text_from_file. -/
def dispatchByMime (m : Str) (plumberRes pypdf2Res pdftotextRes : Except Str Str)
    (docxRes : Except Str DocxDocument) (txtRes : Except Str Str) : Str :=
  if m = "application/pdf".toList then
    _extract_text_from_pdf plumberRes pypdf2Res pdftotextRes
  else if m = "application/vnd.openxmlformats-officedocument.wordprocessingml.document".toList ∨
      m = "application/msword".toList then
    _extract_text_from_docx docxRes
  else if m = "text/plain".toList then
    _extract_text_from_txt txtRes
  else
    extractionSentinel ++ "Unsupported file type: ".toList ++ m

/-- The python-magic branch of extract_text_from_file: determine the MIME
type from the file (fallible) and dispatch on it. -/
def extractViaMagic (magicRes : Except Str Str)
    (plumberRes pypdf2Res pdftotextRes : Except Str Str)
    (docxRes : Except Str DocxDocument) (txtRes : Except Str Str) : Str :=
  match magicRes with
  | .ok m => dispatchByMime m plumberRes pypdf2Res pdftotextRes docxRes txtRes
  | .error e => extractionSentinel ++ "Error extracting text: ".toList ++ e

/-- utils.ResumeProcessor.extract_text_from_file: determine the MIME type
via python-magic when the declared one is falsy (absent or empty),
dispatch on it, and turn every failure into sentinel-prefixed text. -/
def extract_text_from_file (mime_type : Option Str) (magicRes : Except Str Str)
    (plumberRes pypdf2Res pdftotextRes : Except Str Str)
    (docxRes : Except Str DocxDocument) (txtRes : Except Str Str) : Str :=
  match mime_type with
  | some m =>
      if m = [] then extractViaMagic magicRes plumberRes pypdf2Res pdftotextRes docxRes txtRes
      else dispatchByMime m plumberRes pypdf2Res pdftotextRes docxRes txtRes
  | none => extractViaMagic magicRes plumberRes pypdf2Res pdftotextRes docxRes txtRes

end AppUtils

/-- Failure modes of the plain-text read in the services extractor. -/
inductive TxtReadError where
  | unicodeDecodeError
  | other (msg : Str)

namespace AppServices

/-- services.ResumeProcessor._extract_from_pdf: PyPDF2 text; when blank,
append the pdfplumber text; library exceptions are re-raised. -/
def _extract_from_pdf (pypdf2Res plumberRes : Except Str Str) : Except Str Str :=
  match pypdf2Res with
  | .error e => .error e
  | .ok t =>
      if pyStrip t = [] then
        match plumberRes with
        | .ok t2 => .ok (t ++ t2)
        | .error e => .error e
      else .ok t

/-- services.ResumeProcessor._extract_from_docx: all paragraph texts joined
with single newlines; tables are not read; exceptions are re-raised. -/
def _extract_from_docx (docxRes : Except Str DocxDocument) : Except Str Str :=
  match docxRes with
  | .ok doc => .ok (joinWith "\n".toList doc.paragraphs)
  | .error e => .error e

/-- services.ResumeProcessor._extract_from_txt: UTF-8 read, retried with
Latin-1 (which cannot fail to decode) on a UnicodeDecodeError; other
exceptions are re-raised. -/
def _extract_from_txt (utf8Res : Except TxtReadError Str) (latin1Text : Str) :
    Except Str Str :=
  match utf8Res with
  | .ok t => .ok t
  | .error .unicodeDecodeError => .ok latin1Text
  | .error (.other e) => .error e

/-- services.ResumeProcessor.extract_text_from_file: dispatch on the
declared MIME type (raising on unsupported types), and render any raised
exception as sentinel-prefixed text. -/
def extract_text_from_file (mime_type : Str) (pypdf2Res plumberRes : Except Str Str)
    (docxRes : Except Str DocxDocument) (utf8Res : Except TxtReadError Str)
    (latin1Text : Str) : Str :=
  let dispatched : Except Str Str :=
    if mime_type = "application/pdf".toList then
      _extract_from_pdf pypdf2Res plumberRes
    else if mime_type = "application/vnd.openxmlformats-officedocument.wordprocessingml.document".toList then
      _extract_from_docx docxRes
    else if mime_type = "text/plain".toList then
      _extract_from_txt utf8Res latin1Text
    else
      .error ("Unsupported MIME type: ".toList ++ mime_type)
  match dispatched with
  | .ok t => t
  | .error e => extractionSentinel ++ e

end AppServices

/-- Field access on a result dict. -/
def resultLookup (v : JValue) (k : Str) : Option JValue :=
  match v with
  | .obj fs => jLookup k fs
  | _ => none

/-- Number of non-whitespace characters of a string, the measure used by
the spec for the scoring preconditions. -/
def nonWhitespaceCount (s : Str) : Nat :=
  (s.filter (fun c => ¬ c.isWhitespace)).length

/-- A resume text whose stripped length passes the 100-character check while
holding only two non-whitespace characters. -/
def paddedResume : Str := 'a' :: (List.replicate 100 ' ' ++ ['b'])

/-- A job description whose stripped length passes the 50-character check
while holding only two non-whitespace characters. -/
def paddedJD : Str := 'x' :: (List.replicate 60 ' ' ++ ['y'])

/-- A model response carrying a bare JSON object with a score of 85. -/
def score85Response : Str := "\x7b\"overall_match_score\": 85\x7d".toList

/-- C2, amended: the length preconditions are measured on the
leading-and-trailing-stripped text, not on the count of non-whitespace
characters. Inputs short in that measure short-circuit to the zero-score
error result without reaching the external call. -/
theorem c2_short_input_zero_result :
    ∀ (resume_text job_description : Str) (api : ApiOutcome),
    (pyStrip resume_text).length < 100 →
    (pyStrip job_description).length < 50 →
    (generate_job_description_match resume_text job_description api).2 = false ∧
    resultLookup (generate_job_description_match resume_text job_description api).1
      "overall_match_score".toList = some (.num 0) ∧
    resultLookup (generate_job_description_match resume_text job_description api).1
      "error".toList = some (.str "Resume text is too short or empty".toList) := by
  intro r j api h1 _h2
  have hr : generate_job_description_match r j api = (resumeTooShortResult, false) := by
    unfold generate_job_description_match
    rw [if_pos (Or.inr h1)]
  rw [hr]
  exact ⟨rfl, rfl, rfl⟩

/-- Witness for c2_short_input_zero_result at concrete short inputs. -/
theorem c2_short_input_zero_result_witness :
    (generate_job_description_match "too short".toList "tiny".toList
      (.responded "ok".toList)).2 = false ∧
    resultLookup (generate_job_description_match "too short".toList "tiny".toList
      (.responded "ok".toList)).1 "overall_match_score".toList = some (.num 0) ∧
    resultLookup (generate_job_description_match "too short".toList "tiny".toList
      (.responded "ok".toList)).1 "error".toList =
      some (.str "Resume text is too short or empty".toList) :=
  c2_short_input_zero_result _ _ _ (by decide) (by decide)

/-- C2, counterexample to the claim as stated: a resume with two
non-whitespace characters (under 100) and a job description with two
(under 50) still reach the external call and return its score, because
the source measures len(text.strip()), which keeps interior whitespace. -/
theorem c2_counterexample :
    nonWhitespaceCount paddedResume < 100 ∧
    nonWhitespaceCount paddedJD < 50 ∧
    (generate_job_description_match paddedResume paddedJD (.responded score85Response)).2 = true ∧
    resultLookup (generate_job_description_match paddedResume paddedJD
      (.responded score85Response)).1 "overall_match_score".toList = some (.num 85) :=
  ⟨by decide, by decide, rfl, rfl⟩

/-- Rounding an integer value changes nothing. -/
theorem roundHalfEven_intCast (n : Int) : roundHalfEven ((n : Rat)) = n := by
  unfold roundHalfEven
  simp [Int.floor_intCast]

/-- pyRound1 evaluated through an integer numerator over ten. -/
theorem pyRound1_eq_of_mul_ten (q : Rat) (n : Int) (h : q * 10 = (n : Rat)) :
    pyRound1 q = (n : Rat) / 10 := by
  unfold pyRound1
  rw [h, roundHalfEven_intCast]

/-- C10: with an absent or empty skills list the technical score is 0; the
50-point default is per-skill, surfacing for a skill whose level is not in
the level map. -/
theorem c10_technical_score :
    _calculate_technical_score none = 0 ∧
    _calculate_technical_score (some []) = 0 ∧
    ∀ s : PySkill, List.lookup (pyLower (s.level.getD [])) level_scores = none →
      skillScore s = 50 ∧ _calculate_technical_score (some [s]) = 50 := by
  refine ⟨rfl, rfl, fun s h => ?_⟩
  have hs : skillScore s = 50 := by unfold skillScore; rw [h]
  refine ⟨hs, ?_⟩
  have hc : _calculate_technical_score (some [s]) =
      pyRound1 (([s].map skillScore).sum / ((max (List.length [s]) 1 : Nat) : Rat)) := rfl
  rw [hc]
  simp only [List.map_cons, List.map_nil, List.sum_cons, List.sum_nil, hs,
    List.length_singleton]
  norm_num
  have h50 := pyRound1_eq_of_mul_ten 50 500 (by norm_num)
  rw [h50]; norm_num

/-- Witness for c10_technical_score at a skill with an unknown level. -/
theorem c10_technical_score_witness :
    skillScore ⟨some "wizard".toList⟩ = 50 ∧
    _calculate_technical_score (some [⟨some "wizard".toList⟩]) = 50 :=
  (c10_technical_score.2.2 _ (by decide))

/-- The accumulator form of the total-experience loop. -/
theorem totalExp_foldl (exps : List ExpEntry) : ∀ acc : Rat,
    exps.foldl
      (fun acc e =>
        match durationYears e with
        | some y => acc + y
        | none => acc) acc = acc + (exps.filterMap durationYears).sum := by
  induction exps with
  | nil => intro acc; simp
  | cons e t ih =>
      intro acc
      cases h : durationYears e with
      | none => simp [List.foldl_cons, h, ih]
      | some y => simp [List.foldl_cons, h, ih, add_assoc]

/-- C6, amended: the derived total experience sums float() of the
concatenation of every digit and dot character of each duration string
(not the first embedded numeric token); durations whose concatenation does
not parse contribute nothing and do not error, and the spec example still
evaluates to 5.5. -/
theorem c6_total_experience :
    (∀ exps : List ExpEntry, _calculate_total_experience (some exps) =
      pyRound1 ((exps.filterMap durationYears).sum)) ∧
    (∀ (es : List ExpEntry) (e : ExpEntry), durationYears e = none →
      _calculate_total_experience (some (es ++ [e])) =
      _calculate_total_experience (some es)) ∧
    _calculate_total_experience
      (some [⟨some "3 years".toList⟩, ⟨some "2.5 years".toList⟩, ⟨some "N/A".toList⟩]) =
      11 / 2 := by
  have hformula : ∀ exps : List ExpEntry, _calculate_total_experience (some exps) =
      pyRound1 ((exps.filterMap durationYears).sum) := by
    intro exps
    cases exps with
    | nil =>
        show (0 : Rat) = pyRound1 (List.filterMap durationYears []).sum
        have h0 := pyRound1_eq_of_mul_ten 0 0 (by norm_num)
        simp only [List.filterMap_nil, List.sum_nil]
        rw [h0]; norm_num
    | cons a t =>
        have : _calculate_total_experience (some (a :: t)) =
            pyRound1 ((a :: t).foldl
              (fun acc e =>
                match durationYears e with
                | some y => acc + y
                | none => acc) 0) := rfl
        rw [this, totalExp_foldl, zero_add]
  refine ⟨hformula, fun es e h => ?_, ?_⟩
  · rw [hformula, hformula, List.filterMap_append]
    simp [List.filterMap, h]
  · rw [hformula]
    have e1 : durationYears ⟨some "3 years".toList⟩ = some ((3 : Nat) : Rat) := rfl
    have e2 : durationYears ⟨some "2.5 years".toList⟩ =
        some (((2 : Nat) : Rat) + ((5 : Nat) : Rat) / ((10 : Rat) ^ (1 : Nat))) := rfl
    have e3 : durationYears ⟨some "N/A".toList⟩ = none := rfl
    simp only [List.filterMap_cons, e1, e2, e3, List.filterMap_nil, List.sum_cons,
      List.sum_nil]
    rw [pyRound1_eq_of_mul_ten _ 55 (by push_cast; ring_nf)]
    norm_num

/-- Witness for c6_total_experience: appending a non-numeric duration does
not change the total. -/
theorem c6_total_experience_witness :
    _calculate_total_experience
      (some ([⟨some "3 years".toList⟩] ++ [⟨some "N/A".toList⟩])) =
    _calculate_total_experience (some [⟨some "3 years".toList⟩]) :=
  c6_total_experience.2.1 _ _ (by decide)

/-- C6, counterexample to the claim as stated: the duration
"1 year 6 months" contributes 16 (all digits concatenated), not 1 (its
first embedded numeric token). -/
theorem c6_counterexample :
    _calculate_total_experience (some [⟨some "1 year 6 months".toList⟩]) = 16 ∧
    totalExperienceSpec (some [⟨some "1 year 6 months".toList⟩]) = 1 ∧
    (16 : Rat) ≠ 1 := by
  refine ⟨?_, ?_, by norm_num⟩
  · have h : _calculate_total_experience (some [⟨some "1 year 6 months".toList⟩]) =
        pyRound1 (0 + ((16 : Nat) : Rat)) := rfl
    rw [h, pyRound1_eq_of_mul_ten _ 160 (by push_cast; ring_nf)]
    norm_num
  · have h : totalExperienceSpec (some [⟨some "1 year 6 months".toList⟩]) =
        pyRound1 (0 + ((1 : Nat) : Rat)) := rfl
    rw [h, pyRound1_eq_of_mul_ten _ 10 (by push_cast; ring_nf)]
    norm_num

/-- Lower-casing the capitalized form of a vocabulary skill gives back its
lower-cased form (checked over the concrete vocabulary). -/
theorem capitalize_lower_vocab :
    ∀ sk ∈ common_skills, pyLower (pyCapitalize sk) = pyLower sk := by decide

/-- C5: every entry of the fallback skills_match list names a skill that is
a case-insensitive substring of the resume text, carries the fixed 70
percent match and Intermediate level, and the list holds at most five
entries. -/
theorem c5_fallback_skills :
    ∀ resume_text : Str,
    (fallbackSkillsMatch resume_text).length ≤ 5 ∧
    (∀ e ∈ fallbackSkillsMatch resume_text, ∃ name,
      e = .obj [("skill".toList, .str name),
                ("match_percentage".toList, .num 70),
                ("level".toList, .str "Intermediate".toList)] ∧
      containsSub (pyLower name) (pyLower resume_text) = true) ∧
    ∀ (job_description raw_response : Str),
      resultLookup (_generate_fallback_analysis resume_text job_description raw_response)
        "skills_match".toList = some (.arr (fallbackSkillsMatch resume_text)) := by
  intro r
  refine ⟨?_, ?_, fun j raw => rfl⟩
  · unfold fallbackSkillsMatch
    by_cases h : (foundSkills r).isEmpty
    · simp [h]
    · simp only [h, Bool.false_eq_true, if_false, List.length_map, List.length_take]
      omega
  · intro e he
    unfold fallbackSkillsMatch at he
    by_cases h : (foundSkills r).isEmpty
    · simp [h] at he
    · simp only [h, Bool.false_eq_true, if_false] at he
      obtain ⟨sk, hsk, rfl⟩ := List.mem_map.mp he
      have hskf : sk ∈ foundSkills r := List.mem_of_mem_take hsk
      have hmem : sk ∈ common_skills := (List.mem_filter.mp hskf).1
      have hpred : containsSub (pyLower sk) (pyLower r) = true :=
        (List.mem_filter.mp hskf).2
      refine ⟨pyCapitalize sk, rfl, ?_⟩
      rw [capitalize_lower_vocab sk hmem]
      exact hpred

/-- A short resume naming one vocabulary skill. -/
def pyDevResume : Str := "Experienced python developer".toList

/-- Witness for c5_fallback_skills at a concrete resume whose fallback
skills list is exactly the Python entry. -/
theorem c5_fallback_skills_witness :
    (fallbackSkillsMatch pyDevResume).length ≤ 5 ∧ ∃ name,
      skillEntry "Python".toList =
        .obj [("skill".toList, .str name),
              ("match_percentage".toList, .num 70),
              ("level".toList, .str "Intermediate".toList)] ∧
      containsSub (pyLower name) (pyLower pyDevResume) = true := by
  have hmem : skillEntry "Python".toList ∈ fallbackSkillsMatch pyDevResume := by
    have h : fallbackSkillsMatch pyDevResume = [skillEntry "Python".toList] := rfl
    rw [h]
    exact List.mem_singleton_self _
  exact ⟨(c5_fallback_skills pyDevResume).1,
    (c5_fallback_skills pyDevResume).2.1 (skillEntry "Python".toList) hmem⟩

/-- Checking membership in a dict and inserting when absent appends. -/
theorem dictInsert_of_not_any (fields : List (Str × JValue)) (k : Str) (v : JValue)
    (h : fields.any (fun f => f.1 == k) = false) :
    dictInsert fields k v = fields ++ [(k, v)] := by
  induction fields with
  | nil => rfl
  | cons f rest ih =>
      simp only [List.any_cons, Bool.or_eq_false_iff] at h
      obtain ⟨h1, h2⟩ := h
      have hne : f.1 ≠ k := by
        intro he
        rw [he] at h1
        simp at h1
      unfold dictInsert
      rw [if_neg hne, ih h2]
      rfl

/-- A present key is found in the left part of an appended dict. -/
theorem jLookup_append_of_some (k : Str) (l1 l2 : List (Str × JValue)) (v : JValue)
    (h : jLookup k l1 = some v) : jLookup k (l1 ++ l2) = some v := by
  induction l1 with
  | nil => simp [jLookup] at h
  | cons f rest ih =>
      obtain ⟨k0, v0⟩ := f
      simp only [jLookup, List.cons_append] at h ⊢
      by_cases he : k0 = k
      · rw [if_pos he] at h ⊢; exact h
      · rw [if_neg he] at h ⊢; exact ih h

/-- An absent key defers lookup to the right part of an appended dict. -/
theorem jLookup_append_of_none (k : Str) (l1 l2 : List (Str × JValue))
    (h : jLookup k l1 = none) : jLookup k (l1 ++ l2) = jLookup k l2 := by
  induction l1 with
  | nil => rfl
  | cons f rest ih =>
      obtain ⟨k0, v0⟩ := f
      simp only [jLookup, List.cons_append] at h ⊢
      by_cases he : k0 = k
      · rw [if_pos he] at h; cases h
      · rw [if_neg he] at h ⊢; exact ih h

/-- Key absence agrees between jLookup and the any-based membership test. -/
theorem jLookup_none_iff_any (k : Str) (fields : List (Str × JValue)) :
    jLookup k fields = none ↔ fields.any (fun f => f.1 == k) = false := by
  induction fields with
  | nil => simp [jLookup]
  | cons f rest ih =>
      obtain ⟨k0, v0⟩ := f
      simp only [jLookup, List.any_cons]
      by_cases he : k0 = k
      · rw [if_pos he]
        subst he
        simp
      · rw [if_neg he, ih]
        have hb : (k0 == k) = false := by
          cases hx : k0 == k
          · rfl
          · exact absurd (eq_of_beq hx) he
        rw [hb, Bool.false_or]

/-- The effect of one backfill iteration on a dict: keep it when the key is
present, append the default when it is absent. -/
def ensureField (fields : List (Str × JValue)) (k : Str) (d : JValue) :
    List (Str × JValue) :=
  if fields.any (fun f => f.1 == k) then fields else fields ++ [(k, d)]

/-- The dict produced by the backfill loop on a parsed object. -/
def validateMatchData (fields : List (Str × JValue)) : List (Str × JValue) :=
  requiredFields.foldl (fun fs kd => ensureField fs kd.1 kd.2) fields

/-- ensureField keeps every present field unchanged. -/
theorem ensureField_lookup_some (fields : List (Str × JValue)) (k k' : Str)
    (d v : JValue) (h : jLookup k fields = some v) :
    jLookup k (ensureField fields k' d) = some v := by
  unfold ensureField
  split
  · exact h
  · exact jLookup_append_of_some k fields [(k', d)] v h

/-- ensureField for a different key keeps an absent field absent. -/
theorem ensureField_lookup_none_ne (fields : List (Str × JValue)) (k k' : Str)
    (d : JValue) (hne : k ≠ k') (h : jLookup k fields = none) :
    jLookup k (ensureField fields k' d) = none := by
  unfold ensureField
  split
  · exact h
  · rw [jLookup_append_of_none k fields [(k', d)] h]
    unfold jLookup
    rw [if_neg (fun he => hne he.symm)]
    rfl

/-- ensureField fills an absent field with its default. -/
theorem ensureField_lookup_none_self (fields : List (Str × JValue)) (k : Str)
    (d : JValue) (h : jLookup k fields = none) :
    jLookup k (ensureField fields k d) = some d := by
  unfold ensureField
  split
  · rename_i hany
    rw [(jLookup_none_iff_any k fields).mp h] at hany
    cases hany
  · rw [jLookup_append_of_none k fields [(k, d)] h]
    unfold jLookup
    rw [if_pos rfl]

/-- On a dict, one backfill iteration is exactly ensureField. -/
theorem backfillStep_obj (fields : List (Str × JValue)) (kd : Str × JValue) :
    backfillStep (some (.obj fields)) kd = some (.obj (ensureField fields kd.1 kd.2)) := by
  unfold backfillStep pyContains pyDictAssign ensureField
  by_cases h : fields.any (fun f => f.1 == kd.1) = true
  · simp [h]
  · have hf : fields.any (fun f => f.1 == kd.1) = false := by
      cases hx : fields.any (fun f => f.1 == kd.1)
      · rfl
      · exact absurd hx h
    simp [hf, dictInsert_of_not_any fields kd.1 kd.2 hf]

/-- C4: backfill of a parsed JSON object never fails, keeps every present
field unchanged, and fills each absent required field with its neutral
default. -/
theorem c4_parsed_object_backfill :
    ∀ fields : List (Str × JValue),
    backfillRequiredFields (.obj fields) = some (.obj (validateMatchData fields)) ∧
    (∀ k v, jLookup k fields = some v →
      jLookup k (validateMatchData fields) = some v) ∧
    (jLookup "overall_match_score".toList fields = none →
      jLookup "overall_match_score".toList (validateMatchData fields) = some (.num 0)) ∧
    (jLookup "skills_match".toList fields = none →
      jLookup "skills_match".toList (validateMatchData fields) = some (.arr [])) ∧
    (jLookup "experience_relevance".toList fields = none →
      jLookup "experience_relevance".toList (validateMatchData fields) = some (.num 0)) ∧
    (jLookup "education_relevance".toList fields = none →
      jLookup "education_relevance".toList (validateMatchData fields) = some (.num 0)) := by
  intro fields
  have hval : validateMatchData fields =
      ensureField (ensureField (ensureField (ensureField fields
        "overall_match_score".toList (.num 0))
        "skills_match".toList (.arr []))
        "experience_relevance".toList (.num 0))
        "education_relevance".toList (.num 0) := rfl
  refine ⟨?_, ?_, ?_, ?_, ?_, ?_⟩
  · show requiredFields.foldl backfillStep (some (.obj fields)) = _
    simp only [requiredFields, List.foldl_cons, List.foldl_nil, backfillStep_obj]
    rw [hval]
  · intro k v h
    rw [hval]
    exact ensureField_lookup_some _ _ _ _ _
      (ensureField_lookup_some _ _ _ _ _
        (ensureField_lookup_some _ _ _ _ _
          (ensureField_lookup_some _ _ _ _ _ h)))
  · intro h
    rw [hval]
    exact ensureField_lookup_some _ _ _ _ _
      (ensureField_lookup_some _ _ _ _ _
        (ensureField_lookup_some _ _ _ _ _
          (ensureField_lookup_none_self _ _ _ h)))
  · intro h
    rw [hval]
    refine ensureField_lookup_some _ _ _ _ _
      (ensureField_lookup_some _ _ _ _ _
        (ensureField_lookup_none_self _ _ _
          (ensureField_lookup_none_ne _ _ _ _ (by decide) h)))
  · intro h
    rw [hval]
    refine ensureField_lookup_some _ _ _ _ _
      (ensureField_lookup_none_self _ _ _
        (ensureField_lookup_none_ne _ _ _ _ (by decide)
          (ensureField_lookup_none_ne _ _ _ _ (by decide) h)))
  · intro h
    rw [hval]
    refine ensureField_lookup_none_self _ _ _
      (ensureField_lookup_none_ne _ _ _ _ (by decide)
        (ensureField_lookup_none_ne _ _ _ _ (by decide)
          (ensureField_lookup_none_ne _ _ _ _ (by decide) h)))

/-- A parsed object carrying one required field and one extra field. -/
def sampleParsedObject : List (Str × JValue) :=
  [("overall_match_score".toList, .num 85), ("extra".toList, .str "x".toList)]

/-- Witness for c4_parsed_object_backfill at a concrete parsed object. -/
theorem c4_parsed_object_backfill_witness :
    jLookup "overall_match_score".toList (validateMatchData sampleParsedObject) =
      some (.num 85) ∧
    jLookup "skills_match".toList (validateMatchData sampleParsedObject) =
      some (.arr []) :=
  ⟨(c4_parsed_object_backfill sampleParsedObject).2.1 _ _ rfl,
   (c4_parsed_object_backfill sampleParsedObject).2.2.2.1 rfl⟩

/-- A fold whose every step only appends to its accumulator only appends. -/
theorem foldl_extends {α : Type} (f : Str → α → Str)
    (h : ∀ t x, ∃ u, f t x = t ++ u) :
    ∀ (l : List α) (t : Str), ∃ u, List.foldl f t l = t ++ u := by
  intro l
  induction l with
  | nil => intro t; exact ⟨[], by simp⟩
  | cons x rest ih =>
      intro t
      obtain ⟨u1, hu1⟩ := h t x
      obtain ⟨u2, hu2⟩ := ih (f t x)
      exact ⟨u1 ++ u2, by rw [List.foldl_cons, hu2, hu1, List.append_assoc]⟩

/-- The table loop of the utils DOCX extractor only appends to the
paragraph text it starts from. -/
theorem docxAppendTables_extends (tables : List (List (List Str))) (t : Str) :
    ∃ u, AppUtils.docxAppendTables tables t = t ++ u := by
  refine foldl_extends _ ?_ tables t
  intro t1 table
  refine foldl_extends _ ?_ table t1
  intro t2 row
  by_cases hr : AppUtils.docxRowText row ≠ []
  · exact ⟨'\n' :: AppUtils.docxRowText row, by simp [hr]⟩
  · exact ⟨[], by simp [hr]⟩

/-- The document of the DOCX extraction scenario of the spec: two
paragraphs and a single one-row table. -/
def exampleDocx : DocxDocument :=
  ⟨["Jane Doe".toList, "Software Engineer".toList],
   [[["Python".toList, "5 yrs".toList]]]⟩

/-- C8, amended: the utils DOCX extractor emits paragraphs first (nonblank,
blank-line-joined) and appends the table rows after them, matching the
quoted scenario; the services DOCX extractor used by the upload routes
joins every paragraph with a single newline and reads no tables. -/
theorem c8_docx_extraction :
    (∀ doc : DocxDocument, ∃ tablesText,
      AppUtils.docxText doc = AppUtils.docxParagraphText doc ++ tablesText) ∧
    AppUtils.docxText exampleDocx =
      "Jane Doe\n\nSoftware Engineer\nPython | 5 yrs".toList ∧
    AppServices._extract_from_docx (.ok exampleDocx) =
      .ok "Jane Doe\nSoftware Engineer".toList :=
  ⟨fun doc => docxAppendTables_extends doc.tables _, rfl, rfl⟩

/-- C8, counterexample to the claim as stated: the services extractor that
the upload routes call drops the table text and the blank line between
paragraphs on the scenario document. -/
theorem c8_counterexample :
    AppServices.extract_text_from_file
      "application/vnd.openxmlformats-officedocument.wordprocessingml.document".toList
      (.error []) (.error []) (.ok exampleDocx) (.error .unicodeDecodeError) [] =
      "Jane Doe\nSoftware Engineer".toList ∧
    "Jane Doe\nSoftware Engineer".toList ≠
      "Jane Doe\n\nSoftware Engineer\nPython | 5 yrs".toList :=
  ⟨rfl, by decide⟩

/-- The contract of the utils extractor: a sentinel-prefixed failure text,
or the text delivered by the library call the MIME dispatch selected. -/
def utilsExtractOutcome (plumberRes pypdf2Res pdftotextRes : Except Str Str)
    (docxRes : Except Str DocxDocument) (txtRes : Except Str Str) (r : Str) : Prop :=
  (∃ rest, r = extractionSentinel ++ rest) ∨
  (∃ t, plumberRes = .ok t ∧ r = t) ∨
  (∃ t, pypdf2Res = .ok t ∧ r = t) ∨
  (∃ t, pdftotextRes = .ok t ∧ r = t) ∨
  (∃ doc, docxRes = .ok doc ∧ r = AppUtils.docxText doc) ∨
  (∃ t, txtRes = .ok t ∧ r = t)

/-- The contract of the services extractor: a sentinel-prefixed failure
text, or the text delivered by the selected library read. -/
def servicesExtractOutcome (pypdf2Res plumberRes : Except Str Str)
    (docxRes : Except Str DocxDocument) (utf8Res : Except TxtReadError Str)
    (latin1Text : Str) (r : Str) : Prop :=
  (∃ rest, r = extractionSentinel ++ rest) ∨
  (∃ t, pypdf2Res = .ok t ∧ (r = t ∨ ∃ t2, plumberRes = .ok t2 ∧ r = t ++ t2)) ∨
  (∃ doc, docxRes = .ok doc ∧ r = joinWith "\n".toList doc.paragraphs) ∨
  (∃ t, utf8Res = .ok t ∧ r = t) ∨
  (utf8Res = .error .unicodeDecodeError ∧ r = latin1Text)

/-- The pdftotext stage returns its text or the failure sentinel. -/
theorem AppUtils.pdfStage3_cases (p3 : Except Str Str) :
    (∃ rest, AppUtils.pdfStage3 p3 = extractionSentinel ++ rest) ∨
    (∃ t, p3 = .ok t ∧ AppUtils.pdfStage3 p3 = t) := by
  cases p3 with
  | error e => exact Or.inl ⟨"All PDF extraction methods failed".toList, rfl⟩
  | ok t =>
      by_cases h : pyStrip t ≠ []
      · exact Or.inr ⟨t, rfl, by simp [AppUtils.pdfStage3, h]⟩
      · exact Or.inl ⟨"All PDF extraction methods failed".toList, by simp [AppUtils.pdfStage3, h]; rfl⟩

/-- The PyPDF2 stage returns its text, a later stage text, or the sentinel. -/
theorem AppUtils.pdfStage2_cases (p2 p3 : Except Str Str) :
    (∃ rest, AppUtils.pdfStage2 p2 p3 = extractionSentinel ++ rest) ∨
    (∃ t, p2 = .ok t ∧ AppUtils.pdfStage2 p2 p3 = t) ∨
    (∃ t, p3 = .ok t ∧ AppUtils.pdfStage2 p2 p3 = t) := by
  cases p2 with
  | error e =>
      have h3 := AppUtils.pdfStage3_cases p3
      have he : AppUtils.pdfStage2 (.error e) p3 = AppUtils.pdfStage3 p3 := rfl
      rw [he]
      rcases h3 with h | h
      · exact Or.inl h
      · exact Or.inr (Or.inr h)
  | ok t =>
      by_cases h : pyStrip t ≠ []
      · exact Or.inr (Or.inl ⟨t, rfl, by simp [AppUtils.pdfStage2, h]⟩)
      · have he : AppUtils.pdfStage2 (.ok t) p3 = AppUtils.pdfStage3 p3 := by simp [AppUtils.pdfStage2, h]
        rw [he]
        rcases AppUtils.pdfStage3_cases p3 with h3 | h3
        · exact Or.inl h3
        · exact Or.inr (Or.inr h3)

/-- The whole utils PDF chain returns one stage text or the sentinel. -/
theorem utils_pdf_cases (p1 p2 p3 : Except Str Str) :
    (∃ rest, AppUtils._extract_text_from_pdf p1 p2 p3 = extractionSentinel ++ rest) ∨
    (∃ t, p1 = .ok t ∧ AppUtils._extract_text_from_pdf p1 p2 p3 = t) ∨
    (∃ t, p2 = .ok t ∧ AppUtils._extract_text_from_pdf p1 p2 p3 = t) ∨
    (∃ t, p3 = .ok t ∧ AppUtils._extract_text_from_pdf p1 p2 p3 = t) := by
  cases p1 with
  | error e =>
      have he : AppUtils._extract_text_from_pdf (.error e) p2 p3 = AppUtils.pdfStage2 p2 p3 := rfl
      rw [he]
      rcases AppUtils.pdfStage2_cases p2 p3 with h | h | h
      · exact Or.inl h
      · exact Or.inr (Or.inr (Or.inl h))
      · exact Or.inr (Or.inr (Or.inr h))
  | ok t =>
      by_cases h : pyStrip t ≠ []
      · exact Or.inr (Or.inl ⟨t, rfl, by simp [AppUtils._extract_text_from_pdf, h]⟩)
      · have he : AppUtils._extract_text_from_pdf (.ok t) p2 p3 = AppUtils.pdfStage2 p2 p3 := by
          simp [AppUtils._extract_text_from_pdf, h]
        rw [he]
        rcases AppUtils.pdfStage2_cases p2 p3 with h2 | h2 | h2
        · exact Or.inl h2
        · exact Or.inr (Or.inr (Or.inl h2))
        · exact Or.inr (Or.inr (Or.inr h2))

/-- The utils MIME dispatch satisfies the extraction contract. -/
theorem utils_dispatch_cases (m : Str) (p1 p2 p3 : Except Str Str)
    (dx : Except Str DocxDocument) (tx : Except Str Str) :
    utilsExtractOutcome p1 p2 p3 dx tx (AppUtils.dispatchByMime m p1 p2 p3 dx tx) := by
  unfold AppUtils.dispatchByMime utilsExtractOutcome
  split_ifs with h1 h2 h3
  · rcases utils_pdf_cases p1 p2 p3 with h | h | h | h
    · exact Or.inl h
    · exact Or.inr (Or.inl h)
    · exact Or.inr (Or.inr (Or.inl h))
    · exact Or.inr (Or.inr (Or.inr (Or.inl h)))
  · cases dx with
    | error e =>
        exact Or.inl ⟨"Error in DOCX extraction: ".toList ++ e, by
          show extractionSentinel ++ "Error in DOCX extraction: ".toList ++ e = _
          rw [List.append_assoc]⟩
    | ok doc => exact Or.inr (Or.inr (Or.inr (Or.inr (Or.inl ⟨doc, rfl, rfl⟩))))
  · cases tx with
    | error e =>
        exact Or.inl ⟨"Error in TXT extraction: ".toList ++ e, by
          show extractionSentinel ++ "Error in TXT extraction: ".toList ++ e = _
          rw [List.append_assoc]⟩
    | ok t => exact Or.inr (Or.inr (Or.inr (Or.inr (Or.inr ⟨t, rfl, rfl⟩))))
  · exact Or.inl ⟨"Unsupported file type: ".toList ++ m, by rw [List.append_assoc]⟩

/-- The services dispatch satisfies the services extraction contract. -/
theorem services_extract_cases (m : Str) (p2 p1 : Except Str Str)
    (dx : Except Str DocxDocument) (u8 : Except TxtReadError Str) (lat : Str) :
    servicesExtractOutcome p2 p1 dx u8 lat
      (AppServices.extract_text_from_file m p2 p1 dx u8 lat) := by
  unfold AppServices.extract_text_from_file servicesExtractOutcome
  split_ifs with h1 h2 h3
  · unfold AppServices._extract_from_pdf
    cases p2 with
    | error e => exact Or.inl ⟨e, rfl⟩
    | ok t =>
        by_cases h : pyStrip t = []
        · simp only [h, if_pos]
          cases p1 with
          | ok t2 => exact Or.inr (Or.inl ⟨t, rfl, Or.inr ⟨t2, rfl, by simp [h]⟩⟩)
          | error e => exact Or.inl ⟨e, by simp [h]⟩
        · exact Or.inr (Or.inl ⟨t, rfl, Or.inl (by simp [h])⟩)
  · unfold AppServices._extract_from_docx
    cases dx with
    | error e => exact Or.inl ⟨e, rfl⟩
    | ok doc => exact Or.inr (Or.inr (Or.inl ⟨doc, rfl, rfl⟩))
  · unfold AppServices._extract_from_txt
    cases u8 with
    | ok t => exact Or.inr (Or.inr (Or.inr (Or.inl ⟨t, rfl, rfl⟩)))
    | error te =>
        cases te with
        | unicodeDecodeError => exact Or.inr (Or.inr (Or.inr (Or.inr ⟨rfl, rfl⟩)))
        | other e => exact Or.inl ⟨e, rfl⟩
  · exact Or.inl ⟨"Unsupported MIME type: ".toList ++ m, rfl⟩

/-- C7: neither extractor lets a failure escape: every run of
extract_text_from_file ends in either the text a library produced or a
string starting with the fixed sentinel. -/
theorem c7_extraction_never_raises :
    (∀ (mime_type : Option Str) (magicRes plumberRes pypdf2Res pdftotextRes : Except Str Str)
        (docxRes : Except Str DocxDocument) (txtRes : Except Str Str),
      utilsExtractOutcome plumberRes pypdf2Res pdftotextRes docxRes txtRes
        (AppUtils.extract_text_from_file mime_type magicRes plumberRes pypdf2Res
          pdftotextRes docxRes txtRes)) ∧
    (∀ (mime_type : Str) (pypdf2Res plumberRes : Except Str Str)
        (docxRes : Except Str DocxDocument) (utf8Res : Except TxtReadError Str)
        (latin1Text : Str),
      servicesExtractOutcome pypdf2Res plumberRes docxRes utf8Res latin1Text
        (AppServices.extract_text_from_file mime_type pypdf2Res plumberRes docxRes
          utf8Res latin1Text)) := by
  have hmagic : ∀ (magicRes p1 p2 p3 : Except Str Str) (dx : Except Str DocxDocument)
      (tx : Except Str Str),
      utilsExtractOutcome p1 p2 p3 dx tx
        (AppUtils.extractViaMagic magicRes p1 p2 p3 dx tx) := by
    intro magicRes p1 p2 p3 dx tx
    cases magicRes with
    | ok m => exact utils_dispatch_cases m p1 p2 p3 dx tx
    | error e =>
        exact Or.inl ⟨"Error extracting text: ".toList ++ e, by
          have he : AppUtils.extractViaMagic (.error e) p1 p2 p3 dx tx =
              extractionSentinel ++ "Error extracting text: ".toList ++ e := rfl
          rw [he, List.append_assoc]⟩
  constructor
  · intro mime magicRes p1 p2 p3 dx tx
    cases mime with
    | some m =>
        by_cases hm : m = []
        · have he : AppUtils.extract_text_from_file (some m) magicRes p1 p2 p3 dx tx =
              AppUtils.extractViaMagic magicRes p1 p2 p3 dx tx := by
            subst hm
            rfl
          rw [he]
          exact hmagic magicRes p1 p2 p3 dx tx
        · have he : AppUtils.extract_text_from_file (some m) magicRes p1 p2 p3 dx tx =
              AppUtils.dispatchByMime m p1 p2 p3 dx tx := by
            simp only [AppUtils.extract_text_from_file]
            rw [if_neg hm]
          rw [he]
          exact utils_dispatch_cases m p1 p2 p3 dx tx
    | none => exact hmagic magicRes p1 p2 p3 dx tx
  · intro m p2 p1 dx u8 lat
    exact services_extract_cases m p2 p1 dx u8 lat

/-- A resume text passing the 100-character precondition. -/
def sampleResume : Str :=
  ("Seasoned backend engineer with ten years of experience building " ++
   "distributed systems, APIs and data pipelines in production environments.").toList

/-- A job description passing the 50-character precondition. -/
def sampleJD : Str :=
  ("Job Title: Backend Engineer\nWe need expertise in distributed systems " ++
   "and cloud infrastructure.").toList

/-- C1, amended: for inputs passing the length preconditions, a raising
external call returns the zero-score API-error result (not the 50/50/50
fallback), while a response that fails JSON parsing returns the fallback
result whose three scores all equal 50. -/
theorem c1_failure_paths :
    ∀ (resume_text job_description : Str),
    100 ≤ (pyStrip resume_text).length →
    50 ≤ (pyStrip job_description).length →
    (∀ e, generate_job_description_match resume_text job_description (.raised e) =
        (openAIErrorResult e, true) ∧
      resultLookup (openAIErrorResult e) "overall_match_score".toList = some (.num 0) ∧
      resultLookup (openAIErrorResult e) "experience_relevance".toList = some (.num 0) ∧
      resultLookup (openAIErrorResult e) "education_relevance".toList = some (.num 0)) ∧
    (∀ content, parseModelResponse (pyStrip content) = none →
      (generate_job_description_match resume_text job_description (.responded content)).1 =
        _generate_fallback_analysis resume_text job_description (pyStrip content) ∧
      resultLookup (_generate_fallback_analysis resume_text job_description (pyStrip content))
        "overall_match_score".toList = some (.num 50) ∧
      resultLookup (_generate_fallback_analysis resume_text job_description (pyStrip content))
        "experience_relevance".toList = some (.num 50) ∧
      resultLookup (_generate_fallback_analysis resume_text job_description (pyStrip content))
        "education_relevance".toList = some (.num 50)) := by
  intro r j h1 h2
  have hc1 : ¬(r = [] ∨ (pyStrip r).length < 100) := by
    rintro (rfl | h)
    · have he : pyStrip ([] : Str) = [] := rfl
      rw [he] at h1
      simp at h1
    · omega
  have hc2 : ¬(j = [] ∨ (pyStrip j).length < 50) := by
    rintro (rfl | h)
    · have he : pyStrip ([] : Str) = [] := rfl
      rw [he] at h2
      simp at h2
    · omega
  constructor
  · intro e
    have hr : generate_job_description_match r j (.raised e) = (openAIErrorResult e, true) := by
      unfold generate_job_description_match
      rw [if_neg hc1, if_neg hc2]
    exact ⟨hr, rfl, rfl, rfl⟩
  · intro content hparse
    have hr : generate_job_description_match r j (.responded content) =
        handleApiResponse r j content := by
      unfold generate_job_description_match
      rw [if_neg hc1, if_neg hc2]
    have hh : handleApiResponse r j content =
        (_generate_fallback_analysis r j (pyStrip content), true) := by
      unfold handleApiResponse
      simp only [hparse]
    rw [hr, hh]
    exact ⟨rfl, rfl, rfl, rfl⟩

/-- Witness for c1_failure_paths: an unparsable response on valid-length
inputs yields the fallback with all three scores at 50. -/
theorem c1_failure_paths_witness :
    (generate_job_description_match sampleResume sampleJD
      (.responded "the model returned no structured data".toList)).1 =
      _generate_fallback_analysis sampleResume sampleJD
        (pyStrip "the model returned no structured data".toList) ∧
    resultLookup (_generate_fallback_analysis sampleResume sampleJD
      (pyStrip "the model returned no structured data".toList))
      "overall_match_score".toList = some (.num 50) ∧
    resultLookup (_generate_fallback_analysis sampleResume sampleJD
      (pyStrip "the model returned no structured data".toList))
      "experience_relevance".toList = some (.num 50) ∧
    resultLookup (_generate_fallback_analysis sampleResume sampleJD
      (pyStrip "the model returned no structured data".toList))
      "education_relevance".toList = some (.num 50) :=
  (c1_failure_paths sampleResume sampleJD (by decide) (by decide)).2
    "the model returned no structured data".toList (by rfl)

/-- C1, counterexample to the claim as stated: on valid-length inputs a
raising external call produces a result whose overall_match_score is 0,
not the 50 the claim requires for every failure. -/
theorem c1_counterexample :
    resultLookup (generate_job_description_match sampleResume sampleJD
      (.raised "connection reset".toList)).1 "overall_match_score".toList =
      some (.num 0) ∧
    resultLookup (generate_job_description_match sampleResume sampleJD
      (.raised "connection reset".toList)).1 "overall_match_score".toList ≠
      some (.num 50) := by
  have e : resultLookup (generate_job_description_match sampleResume sampleJD
      (.raised "connection reset".toList)).1 "overall_match_score".toList =
      some (JValue.num 0) := rfl
  refine ⟨e, ?_⟩
  intro hcontra
  rw [e] at hcontra
  injection hcontra with h1
  injection h1 with h2
  norm_num at h2

/-- A character absent from a list is never found by findIdx?. -/
theorem findIdx_eq_none_of_not_mem (xs : Str) (c : Char) (h : c ∉ xs) :
    xs.findIdx? (· == c) = none := by
  refine List.findIdx?_eq_none_iff.mpr ?_
  intro x hx
  cases hxc : x == c
  · rfl
  · exact absurd (eq_of_beq hxc ▸ hx) h

/-- str.find over a brace-free prefix followed by text headed by the
searched character lands on the prefix length. -/
theorem pyFind_append_head (pre b post : Str) (c : Char)
    (hpre : c ∉ pre) (hb : b.head? = some c) :
    pyFind (pre ++ b ++ post) c = (pre.length : Int) := by
  obtain ⟨b2, rfl⟩ : ∃ b2, b = c :: b2 := by
    cases b with
    | nil => simp at hb
    | cons hd tl =>
        simp only [List.head?_cons, Option.some.injEq] at hb
        exact ⟨tl, by rw [hb]⟩
  unfold pyFind
  rw [List.append_assoc, List.findIdx?_append, findIdx_eq_none_of_not_mem pre c hpre]
  simp [List.findIdx?_cons]

/-- str.rfind over text whose suffix is brace-free and whose middle part
ends in the searched character lands on the end of the middle part. -/
theorem pyRFind_append_last (pre b post : Str) (c : Char)
    (hpost : c ∉ post) (hb : b.getLast? = some c) :
    pyRFind (pre ++ b ++ post) c = (pre.length : Int) + b.length - 1 := by
  have hrev : b.reverse.head? = some c := by rw [List.head?_reverse]; exact hb
  obtain ⟨b2, hb2⟩ : ∃ b2, b.reverse = c :: b2 := by
    cases hx : b.reverse with
    | nil => rw [hx] at hrev; simp at hrev
    | cons hd tl =>
        rw [hx] at hrev
        simp only [List.head?_cons, Option.some.injEq] at hrev
        exact ⟨tl, by rw [hrev]⟩
  have hpost' : c ∉ post.reverse := by simp [hpost]
  unfold pyRFind
  rw [show (pre ++ b ++ post).reverse = post.reverse ++ (b.reverse ++ pre.reverse) by
    simp [List.reverse_append]]
  rw [List.findIdx?_append, findIdx_eq_none_of_not_mem post.reverse c hpost', hb2]
  have hfind : List.findIdx? (fun x => x == c) (c :: (b2 ++ pre.reverse)) = some 0 := by
    simp [List.findIdx?_cons]
  rw [List.cons_append, hfind]
  have hsc : Option.or none
      (Option.map (fun i => i + (List.reverse post).length) (some 0)) =
      some (0 + (List.reverse post).length) := rfl
  rw [hsc]
  show (↑(List.length (pre ++ b ++ post)) - 1 - ↑(0 + (List.reverse post).length) : Int) =
    ↑(List.length pre) + ↑(List.length b) - 1
  simp only [List.length_append, List.length_reverse]
  push_cast
  ring

/-- C3, amended: when a brace span exists, the parser parses exactly that
span and never re-parses the whole text; consequently a JSON object
wrapped in brace-free prose or markdown fences parses to the same result
as the bare object. -/
theorem c3_parse_extraction :
    ∀ (pre b post : Str),
    '\x7b' ∉ pre → '\x7d' ∉ post →
    b.head? = some '\x7b' → b.getLast? = some '\x7d' →
    parseModelResponse (pre ++ b ++ post) = jsonLoads b ∧
    parseModelResponse b = jsonLoads b := by
  intro p b s hp hs hh hl
  have hbne : b ≠ [] := by
    intro h
    rw [h] at hh
    simp at hh
  have hblen : 1 ≤ b.length := by
    cases b with
    | nil => exact absurd rfl hbne
    | cons x t => simp
  constructor
  · unfold parseModelResponse
    rw [pyFind_append_head p b s _ hp hh, pyRFind_append_last p b s _ hs hl]
    have hcond : (0 : Int) ≤ (p.length : Int) ∧
        (p.length : Int) < (p.length : Int) + b.length - 1 + 1 := by
      constructor
      · exact Int.natCast_nonneg _
      · omega
    rw [if_pos hcond]
    have h1 : ((p.length : Int)).toNat = p.length := Int.toNat_natCast _
    have h2 : (((p.length : Int) + b.length - 1 + 1)).toNat = p.length + b.length := by
      omega
    rw [h1, h2]
    unfold pySlice
    rw [List.append_assoc, List.drop_left]
    have h3 : p.length + b.length - p.length = b.length := by omega
    rw [h3, List.take_left]
  · unfold parseModelResponse
    have hfind : pyFind b '\x7b' = (0 : Int) := by
      have h := pyFind_append_head [] b [] '\x7b' (by simp) hh
      simpa using h
    have hrfind : pyRFind b '\x7d' = (b.length : Int) - 1 := by
      have h := pyRFind_append_last [] b [] '\x7d' (by simp) hl
      simpa using h
    rw [hfind, hrfind]
    have hcond : (0 : Int) ≤ 0 ∧ (0 : Int) < (b.length : Int) - 1 + 1 := by
      constructor
      · omega
      · omega
    rw [if_pos hcond]
    have h1 : ((0 : Int)).toNat = 0 := rfl
    have h2 : (((b.length : Int) - 1 + 1)).toNat = b.length := by omega
    rw [h1, h2]
    unfold pySlice
    rw [List.drop_zero]
    have h3 : b.length - 0 = b.length := by omega
    rw [h3, List.take_length]

/-- Follows the wording of the spec for comparison with parseModelResponse:
parse the first-brace-to-last-brace span, and on a failed span parse
attempt the entire raw response. -/
def parseModelResponseSpec (analysis_text : Str) : Option JValue :=
  let json_start := pyFind analysis_text '\x7b'
  let json_end := pyRFind analysis_text '\x7d' + 1
  if 0 ≤ json_start ∧ json_start < json_end then
    match jsonLoads (pySlice analysis_text json_start.toNat json_end.toNat) with
    | some v => some v
    | none => jsonLoads analysis_text
  else jsonLoads analysis_text

/-- C3, counterexample to the claim as stated: on the response text
consisting of the five characters quote, brace, a, brace, quote, the
brace span fails to parse and the code gives up (the fallback path),
while the algorithm of the claim would re-parse the whole response and
obtain the JSON string. -/
theorem c3_counterexample :
    parseModelResponse "\"\x7ba\x7d\"".toList = none ∧
    parseModelResponseSpec "\"\x7ba\x7d\"".toList = some (.str "\x7ba\x7d".toList) ∧
    jsonLoads "\"\x7ba\x7d\"".toList = some (.str "\x7ba\x7d".toList) :=
  ⟨rfl, rfl, rfl⟩

/-- Witness for c3_parse_extraction: a markdown-fenced score object parses
exactly like the bare object. -/
theorem c3_parse_extraction_witness :
    parseModelResponse ("```json\n".toList ++ score85Response ++ "\n```".toList) =
      jsonLoads score85Response ∧
    parseModelResponse score85Response = jsonLoads score85Response :=
  c3_parse_extraction "```json\n".toList score85Response "\n```".toList
    (by decide) (by decide) (by decide) (by decide)

/-- span on a head failing the predicate splits nothing off. -/
theorem span_cons_neg (p : Char → Bool) (a : Char) (l : Str) (h : p a = false) :
    List.span p (a :: l) = ([], a :: l) := by
  simp [List.span_eq_take_drop, List.takeWhile_cons, List.dropWhile_cons, h]

/-- span on a head passing the predicate keeps it in the first component. -/
theorem span_cons_pos (p : Char → Bool) (a : Char) (l : Str) (h : p a = true) :
    List.span p (a :: l) = (a :: (l.span p).1, (l.span p).2) := by
  simp [List.span_eq_take_drop, List.takeWhile_cons, List.dropWhile_cons, h]

/-- The first letter of every month name is neither a digit nor a dash. -/
theorem month_head_facts :
    ∀ t ∈ monthNames, (t.headD ' ').isDigit = false ∧ t.headD ' ' ≠ '-' := by
  decide

/-- A month-pattern token never parses with the ISO format: its first
character is a letter, so the year digits are empty. -/
theorem monthToken_strptime_none (s : Str) (h : isMonthToken s = true) :
    strptimeIsoDate s = none := by
  unfold isMonthToken at h
  split at h
  · rename_i a b c rest
    rw [Bool.and_eq_true] at h
    have hmem : [a, b, c] ∈ monthNames := of_decide_eq_true h.1
    have hfacts := month_head_facts [a, b, c] hmem
    simp only [List.headD_cons] at hfacts
    unfold strptimeIsoDate
    rw [span_cons_neg _ _ _ hfacts.1]
    simp [hfacts.2]
  · cases h

/-- A slash-pattern token never parses with the ISO format: the character
after the first two digits is a slash, not a dash. -/
theorem slashToken_strptime_none (s : Str) (h : isSlashDateToken s = true) :
    strptimeIsoDate s = none := by
  unfold isSlashDateToken at h
  split at h
  · rename_i a b c d e f g i j k
    simp only [Bool.and_eq_true] at h
    obtain ⟨⟨⟨⟨⟨⟨⟨⟨⟨ha, hb⟩, hc⟩, hd⟩, he⟩, hf⟩, hg⟩, hi⟩, hj⟩, hk⟩ := h
    have hc' : c = '/' := eq_of_beq hc
    subst hc'
    unfold strptimeIsoDate
    rw [span_cons_pos _ _ _ ha, span_cons_pos _ _ _ hb,
      span_cons_neg _ _ _ (by rfl : ('/').isDigit = false)]
    simp
  · cases h

/-- C9: every token matched by the month-name or slash date pattern is
always reported invalid (only the ISO parser is ever consulted), and a
token that escapes the invalid list can only be an ISO-shaped token. -/
theorem c9_date_validation :
    ∀ (monthMatches slashMatches isoMatches : List Str),
    (∀ s ∈ monthMatches, isMonthToken s = true) →
    (∀ s ∈ slashMatches, isSlashDateToken s = true) →
    (∀ s ∈ isoMatches, isIsoDateToken s = true) →
    (∀ s ∈ monthMatches ++ slashMatches,
      s ∈ validate_date_formats monthMatches slashMatches isoMatches) ∧
    (∀ s ∈ monthMatches ++ slashMatches ++ isoMatches,
      s ∉ validate_date_formats monthMatches slashMatches isoMatches →
      isIsoDateToken s = true) := by
  intro m1 m2 m3 h1 h2 h3
  have hmain : ∀ s ∈ m1 ++ m2,
      s ∈ validate_date_formats m1 m2 m3 := by
    intro s hs
    unfold validate_date_formats
    rcases List.mem_append.mp hs with hm | hm
    · refine List.mem_append.mpr (Or.inl (List.mem_append.mpr (Or.inl ?_)))
      refine List.mem_filter.mpr ⟨hm, ?_⟩
      rw [monthToken_strptime_none s (h1 s hm)]
      rfl
    · refine List.mem_append.mpr (Or.inl (List.mem_append.mpr (Or.inr ?_)))
      refine List.mem_filter.mpr ⟨hm, ?_⟩
      rw [slashToken_strptime_none s (h2 s hm)]
      rfl
  refine ⟨hmain, ?_⟩
  intro s hs hnot
  rcases List.mem_append.mp hs with hs' | hm3
  · exact absurd (hmain s hs') hnot
  · exact h3 s hm3

/-- Witness for c9_date_validation: a month-name token, a slash token and
an ISO-shaped but calendar-invalid token; the month token lands in the
invalid list. -/
theorem c9_date_validation_witness :
    "Jan 2020".toList ∈ validate_date_formats
      ["Jan 2020".toList] ["01/15/2020".toList] ["2020-02-30".toList] :=
  (c9_date_validation ["Jan 2020".toList] ["01/15/2020".toList]
      ["2020-02-30".toList] (by decide) (by decide) (by decide)).1
    "Jan 2020".toList (by decide)
